import Mathlib

/-!
Verification of the Bitcoin signing entry of wallet-core
(src/rust/tw_bitcoin/src/entry.rs) against its natural-language
specification.

The Rust code is shallowly embedded: byte strings are lists of naturals,
protobuf one-of fields are inductive types, and every Rust panic
(todo!, unwrap on None/Err, explicit panic!, out-of-bounds indexing) is an
explicit error value of type RustPanic, so fallible operations return
Except RustPanic.  Cryptographic primitives (SHA-256, HASH160, secp256k1
ECDSA/Schnorr signing, taproot key tweaking) are library dependencies of
the repository, not part of the embedded source; following the spec they
are modelled as pure functions, collected in a Crypto structure over which
all statements are parameterised, with the digest-length facts the claims
rely on carried as fields.
-/

set_option maxRecDepth 8000

namespace WalletCore

/-! ## Byte-level helpers (Bitcoin wire encodings) -/

/-- Little-endian 4-byte encoding of a 32-bit value. -/
def u32le (n : Nat) : List Nat :=
  [n % 256, n / 256 % 256, n / 65536 % 256, n / 16777216 % 256]

/-- Little-endian 8-byte encoding of a 64-bit value. -/
def u64le (n : Nat) : List Nat :=
  u32le (n % 4294967296) ++ u32le (n / 4294967296 % 4294967296)

/-- Little-endian 4-byte encoding of an i32 (two's complement). -/
def i32le (v : Int) : List Nat :=
  u32le ((v % 4294967296).toNat)

/-- Bitcoin variable-length integer (CompactSize) encoding. -/
def compactSize (n : Nat) : List Nat :=
  if n < 253 then [n]
  else if n < 65536 then 253 :: [n % 256, n / 256 % 256]
  else if n < 4294967296 then 254 :: u32le n
  else 255 :: u64le n

/-- Minimal script data push, as produced by ScriptBuf push_slice. -/
def pushSlice (data : List Nat) : List Nat :=
  if data.length < 76 then data.length :: data
  else if data.length < 256 then 76 :: data.length :: data
  else if data.length < 65536 then
    77 :: (data.length % 256) :: (data.length / 256 % 256) :: data
  else 78 :: u32le data.length ++ data

/-- ScriptBuf::new_p2pkh: OP_DUP OP_HASH160 push-20 OP_EQUALVERIFY OP_CHECKSIG. -/
def p2pkhScript (h : List Nat) : List Nat :=
  [118, 169] ++ pushSlice h ++ [136, 172]

/-- ScriptBuf::new_v0_p2wpkh: OP_0 push-20. -/
def p2wpkhScript (h : List Nat) : List Nat :=
  0 :: pushSlice h

/-- ScriptBuf::new_v1_p2tr / new_v1_p2tr_tweaked: OP_1 push-32 of the output key. -/
def p2trScript (k : List Nat) : List Nat :=
  81 :: pushSlice k

/-! ## Request data model (tw_proto BitcoinV2 SigningInput) -/

/-- Proto::ToPublicKeyOrHash one-of. -/
inductive PubkeyOrHash
  | hash (h : List Nat)
  | pubkey (pk : List Nat)
  | none
deriving DecidableEq

/-- Proto::mod_Input::mod_InputVariant one-of (the builder variants). -/
inductive InputBuilder
  | p2sh (redeemScript : List Nat)
  | p2pkh (poh : PubkeyOrHash)
  | p2wsh (redeemScript : List Nat)
  | p2wpkh (poh : PubkeyOrHash)
  | p2tr_key_path (pubkey : List Nat)
  | p2tr_script_path (payload : List Nat) (control_block : List Nat)
  | none
deriving DecidableEq

/-- Proto::mod_Input one-of variant. -/
inductive InputVariant
  | builder (b : InputBuilder)
  | custom (script_sig : List Nat) (witness_items : List (List Nat))
  | none
deriving DecidableEq

/-- Proto::Input. -/
structure Input where
  txid : List Nat
  vout : Nat
  amount : Nat
  one_prevout : Bool
  variant : InputVariant
deriving DecidableEq

/-- Proto::mod_Builder one-of (output builder variants). -/
inductive OutputBuilder
  | p2sh (scriptHash : List Nat)
  | p2pkh (poh : PubkeyOrHash)
  | p2wsh (scriptHash : List Nat)
  | p2wpkh (poh : PubkeyOrHash)
  | p2tr_key_path (pubkey : List Nat)
  | p2tr_script_path (public_key : List Nat) (node_hash : List Nat)
  | none
deriving DecidableEq

/-- Proto::mod_Output one-of to_recipient. -/
inductive OutputRecipient
  | script_pubkey (s : List Nat)
  | builder (b : OutputBuilder)
  | from_address (addr : List Nat)
  | none
deriving DecidableEq

/-- Proto::Output. -/
structure Output where
  amount : Nat
  to_recipient : OutputRecipient
deriving DecidableEq

/-- Proto::SelectorType. -/
inductive SelectorType
  | AutomaticAscending
  | UseAll
deriving DecidableEq

/-- The lock_time one-of, shared shape between the BitcoinV2 and Utxo protos. -/
inductive LockTimeOneOf
  | blocks (n : Nat)
  | seconds (n : Nat)
  | none
deriving DecidableEq

/-- Proto::SigningInput. -/
structure SigningInput where
  version : Int
  lock_time : LockTimeOneOf
  private_key : List Nat
  input_selector : SelectorType
  inputs : List Input
  outputs : List Output
deriving DecidableEq

/-- convert_locktime: the case-by-case translation between the two lock-time
one-ofs (identical shapes). -/
def convert_locktime : LockTimeOneOf → LockTimeOneOf
  | LockTimeOneOf.blocks n => LockTimeOneOf.blocks n
  | LockTimeOneOf.seconds n => LockTimeOneOf.seconds n
  | LockTimeOneOf.none => LockTimeOneOf.none

/-! ## Utxo-proto side (UtxoProto records built by entry.rs) -/

/-- UtxoProto::SighashMethod. -/
inductive SighashMethod
  | Legacy
  | Segwit
  | Taproot
deriving DecidableEq

/-- UtxoProto::TxIn as filled by preimage_hashes; sighash_ty is
UtxoProto::SighashType, hard-coded to All (1). -/
structure TxIn where
  txid : List Nat
  vout : Nat
  amount : Nat
  script_pubkey : List Nat
  sighash_method : SighashMethod
  sighash_ty : Nat
  leaf_hash : List Nat
  one_prevout : Bool
deriving DecidableEq

/-- UtxoProto::TxOut. -/
structure TxOut where
  value : Nat
  script_pubkey : List Nat
deriving DecidableEq

/-- UtxoProto::SigningInput handed to the tw_utxo compiler. -/
structure UtxoSigningInput where
  version : Int
  lock_time : LockTimeOneOf
  inputs : List TxIn
  outputs : List TxOut
deriving DecidableEq

/-- One entry of the sighashes array of the tw_utxo pre-signing output. -/
structure SighashEntry where
  sighash : List Nat
  signing_method : SighashMethod
deriving DecidableEq

/-- Proto::PreSigningOutput. -/
structure PreSigningOutput where
  error : Nat
  sighashes : List SighashEntry
  utxo_inputs : List TxIn
  utxo_outputs : List TxOut
deriving DecidableEq

/-- UtxoProto::TxInClaim built by compile. -/
structure TxInClaim where
  txid : List Nat
  vout : Nat
  sequence : Nat
  script_sig : List Nat
  witness_items : List (List Nat)
deriving DecidableEq

/-- UtxoProto::PreSerialization; compile hard-codes lock_time to blocks(0). -/
structure PreSerialization where
  version : Int
  lock_time_blocks : Nat
  inputs : List TxInClaim
  outputs : List TxOut
deriving DecidableEq

/-- Proto::SigningOutput (the transaction field is always set to None by
compile and is omitted). -/
structure SigningOutput where
  encoded : List Nat
  transaction_id : List Nat
  error : Nat
  fee : Nat
deriving DecidableEq

/-- A Rust panic: todo! stubs, unwrap on None/Err, explicit panic!(),
out-of-bounds slice indexing. -/
inductive RustPanic
  | todo
  | unwrapFailed
  | explicitPanic
  | indexOutOfBounds
deriving DecidableEq

/-! ## Cryptographic primitives

The repository links secp256k1, SHA-256 and RIPEMD-160 as library
dependencies; the deterministic primitives are pure functions of their
arguments, collected here as a parameter structure; sha256_len records the
output length the library guarantees.  The two aux-randomized Schnorr
signers take the sampled entropy as an explicit first argument:
schnorrSignAux models Secp256k1::sign_schnorr (the production key-path
call) and schnorrSignKeyPairAux models KeyPair::sign_schnorr via the
global context (the script-path call), which draws fresh thread_rng aux
randomness on every call in every build — that call site has no cfg(test)
switch.  schnorrSignNoAux models sign_schnorr_no_aux_rand. -/

structure Crypto where
  sha256 : List Nat → List Nat
  sha256_len : ∀ m, (sha256 m).length = 32
  hash160 : List Nat → List Nat
  pubkeyValid : List Nat → Bool
  xonly : List Nat → List Nat
  tapTweakXOnly : List Nat → Option (List Nat) → List Nat
  keypairTapTweakNone : List Nat → List Nat
  seckeyValid : List Nat → Bool
  ecdsaSign : List Nat → List Nat → List Nat
  schnorrSignAux : List Nat → List Nat → List Nat → List Nat
  schnorrSignNoAux : List Nat → List Nat → List Nat
  schnorrSignKeyPairAux : List Nat → List Nat → List Nat → List Nat
  derValid : List Nat → Bool
  controlBlockValid : List Nat → Bool
  sighashDigest : UtxoSigningInput → Nat → List Nat

/-- The ASCII bytes of the BIP-341 tag TapLeaf. -/
def tapLeafTag : List Nat := [84, 97, 112, 76, 101, 97, 102]

/-- BIP-340 tagged hash: sha256(sha256(tag) || sha256(tag) || m). -/
def taggedHash (c : Crypto) (tag m : List Nat) : List Nat :=
  c.sha256 (c.sha256 tag ++ c.sha256 tag ++ m)

/-- TapLeafHash::from_script with LeafVersion TapScript (0xc0): the TapLeaf
tagged hash of the leaf-version byte followed by the consensus-encoded
script (CompactSize length then bytes). -/
def tapLeafHash (c : Crypto) (script : List Nat) : List Nat :=
  taggedHash c tapLeafTag (192 :: (compactSize script.length ++ script))

/-! ## Helper conversions (entry.rs free functions) -/

/-- pubkey_hash_from_proto; from_slice requires a 20-byte hash, a raw key is
parsed then HASH160-ed; the None arm returns Error::Todo which every call
site unwraps, hence a panic value here. -/
def pubkeyHashFromProto (c : Crypto) (poh : PubkeyOrHash) :
    Except RustPanic (List Nat) :=
  match poh with
  | PubkeyOrHash.hash h =>
      if h.length = 20 then Except.ok h else Except.error RustPanic.unwrapFailed
  | PubkeyOrHash.pubkey pk =>
      if c.pubkeyValid pk then Except.ok (c.hash160 pk)
      else Except.error RustPanic.unwrapFailed
  | PubkeyOrHash.none => Except.error RustPanic.todo

/-- witness_pubkey_hash_from_proto; wpubkey_hash() is Some only for a
compressed (33-byte) key. -/
def witnessPubkeyHashFromProto (c : Crypto) (poh : PubkeyOrHash) :
    Except RustPanic (List Nat) :=
  match poh with
  | PubkeyOrHash.hash h =>
      if h.length = 20 then Except.ok h else Except.error RustPanic.unwrapFailed
  | PubkeyOrHash.pubkey pk =>
      if c.pubkeyValid pk then
        if pk.length = 33 then Except.ok (c.hash160 pk)
        else Except.error RustPanic.unwrapFailed
      else Except.error RustPanic.unwrapFailed
  | PubkeyOrHash.none => Except.error RustPanic.todo

/-! ## process_recipients -/

/-- The script_pubkey computed for one output by process_recipients. -/
def outputScriptPubkey (c : Crypto) (o : Output) : Except RustPanic (List Nat) :=
  match o.to_recipient with
  | OutputRecipient.script_pubkey s => Except.ok s
  | OutputRecipient.builder b =>
    match b with
    | OutputBuilder.p2sh _ => Except.error RustPanic.todo
    | OutputBuilder.p2pkh poh =>
        match pubkeyHashFromProto c poh with
        | Except.ok ph => Except.ok (p2pkhScript ph)
        | Except.error e => Except.error e
    | OutputBuilder.p2wsh _ => Except.error RustPanic.todo
    | OutputBuilder.p2wpkh poh =>
        match witnessPubkeyHashFromProto c poh with
        | Except.ok wh => Except.ok (p2wpkhScript wh)
        | Except.error e => Except.error e
    | OutputBuilder.p2tr_key_path pk =>
        if c.pubkeyValid pk then
          Except.ok (p2trScript (c.tapTweakXOnly (c.xonly pk) Option.none))
        else Except.error RustPanic.unwrapFailed
    | OutputBuilder.p2tr_script_path pk nodeHash =>
        if nodeHash.length = 32 then
          if c.pubkeyValid pk then
            Except.ok (p2trScript (c.tapTweakXOnly (c.xonly pk) (Option.some nodeHash)))
          else Except.error RustPanic.unwrapFailed
        else Except.error RustPanic.unwrapFailed
    | OutputBuilder.none => Except.error RustPanic.todo
  | OutputRecipient.from_address _ => Except.error RustPanic.todo
  | OutputRecipient.none => Except.error RustPanic.todo

/-- process_recipients: one UtxoProto::TxOut per declared output, in order. -/
def processRecipients (c : Crypto) (outputs : List Output) :
    Except RustPanic (List TxOut) :=
  outputs.mapM (fun o =>
    match outputScriptPubkey c o with
    | Except.ok spk => Except.ok { value := o.amount, script_pubkey := spk }
    | Except.error e => Except.error e)

/-! ## Input classification (the match inside preimage_hashes) -/

/-- The (sighash_method, script_pubkey, leaf_hash) triple the classifier in
preimage_hashes derives for one input; leaf_hash is unwrap_or_default, so
the empty list stands for the absent leaf hash. -/
structure Classified where
  sighash_method : SighashMethod
  script_pubkey : List Nat
  leaf_hash : List Nat
deriving DecidableEq

/-- The per-input classification match of preimage_hashes: p2sh/p2wsh and
the custom and absent variants are todo! stubs; p2pkh gives Legacy with the
p2pkh script of the pubkey hash; p2wpkh gives Segwit; p2tr key-path gives
Taproot with the tweaked (empty merkle root) output-key script and no leaf
hash; p2tr script-path gives Taproot with the raw payload script and its
TapLeafHash. -/
def classifyInput (c : Crypto) (input : Input) : Except RustPanic Classified :=
  match input.variant with
  | InputVariant.builder b =>
    match b with
    | InputBuilder.p2sh _ => Except.error RustPanic.todo
    | InputBuilder.p2pkh poh =>
        match pubkeyHashFromProto c poh with
        | Except.ok ph =>
            Except.ok { sighash_method := SighashMethod.Legacy,
                        script_pubkey := p2pkhScript ph, leaf_hash := [] }
        | Except.error e => Except.error e
    | InputBuilder.p2wsh _ => Except.error RustPanic.todo
    | InputBuilder.p2wpkh poh =>
        match witnessPubkeyHashFromProto c poh with
        | Except.ok wh =>
            Except.ok { sighash_method := SighashMethod.Segwit,
                        script_pubkey := p2wpkhScript wh, leaf_hash := [] }
        | Except.error e => Except.error e
    | InputBuilder.p2tr_key_path pk =>
        if c.pubkeyValid pk then
          Except.ok { sighash_method := SighashMethod.Taproot,
                      script_pubkey :=
                        p2trScript (c.tapTweakXOnly (c.xonly pk) Option.none),
                      leaf_hash := [] }
        else Except.error RustPanic.unwrapFailed
    | InputBuilder.p2tr_script_path payload _ =>
        Except.ok { sighash_method := SighashMethod.Taproot,
                    script_pubkey := payload,
                    leaf_hash := tapLeafHash c payload }
    | InputBuilder.none => Except.error RustPanic.todo
  | InputVariant.custom _ _ => Except.error RustPanic.todo
  | InputVariant.none => Except.error RustPanic.todo

/-- The UtxoProto::TxIn record preimage_hashes pushes for one input. -/
def buildTxIn (c : Crypto) (input : Input) : Except RustPanic TxIn :=
  match classifyInput c input with
  | Except.ok cls =>
      Except.ok { txid := input.txid, vout := input.vout, amount := input.amount,
                  script_pubkey := cls.script_pubkey,
                  sighash_method := cls.sighash_method,
                  sighash_ty := 1,
                  leaf_hash := cls.leaf_hash,
                  one_prevout := input.one_prevout }
  | Except.error e => Except.error e

/-- The classification loop of preimage_hashes over all declared inputs. -/
def buildTxIns (c : Crypto) (inputs : List Input) : Except RustPanic (List TxIn) :=
  inputs.mapM (buildTxIn c)

/-! ## UTXO selection (the selector match of preimage_hashes) -/

/-- Insertion of a TxIn into an amount-ascending list: the element goes
after all strictly smaller amounts and before equal ones; since sortByAmount
inserts the head into the already-sorted tail, equal-amount entries of the
tail (later in declared order) stay after it, matching the stability of
Rust's sort_by. -/
def insertByAmount (x : TxIn) : List TxIn → List TxIn
  | [] => [x]
  | y :: ys => if y.amount < x.amount then y :: insertByAmount x ys else x :: y :: ys

/-- The stable ascending-by-amount sort performed by sort_by. -/
def sortByAmount : List TxIn → List TxIn
  | [] => []
  | x :: xs => insertByAmount x (sortByAmount xs)

/-- The take_while pass of the AutomaticAscending arm: remaining is reduced
by saturating subtraction for each tested element, and an element is kept
only while the reduced remaining is still nonzero — so the element on which
remaining first reaches zero is tested but dropped.  Returns the kept
prefix together with the final value of remaining. -/
def takeUntilCovered : Nat → List TxIn → List TxIn × Nat
  | remaining, [] => ([], remaining)
  | remaining, x :: xs =>
      let r := remaining - x.amount
      if r = 0 then ([], r)
      else
        let p := takeUntilCovered r xs
        (x :: p.1, p.2)

/-! ## tw_utxo pre-signing -/

/-- Modelled from the spec: the tw_utxo Compiler::preimage_hashes stage
(compiler crate, not under src/) returns one (sighash, method) entry
parallel to each selected input, the 32-byte digest computed by the
legacy / BIP-143 / BIP-341 algorithm of the input's method; the digest
computation is abstracted as the sighashDigest primitive. -/
def utxoPreimageHashes (c : Crypto) (s : UtxoSigningInput) : List SighashEntry :=
  s.inputs.enum.map (fun p =>
    { sighash := c.sighashDigest s p.1, signing_method := p.2.sighash_method })

/-- preimage_hashes: process the recipients, classify every declared input,
apply the selector (AutomaticAscending sorts ascending and keeps the
take_while prefix, mutating remaining; UseAll keeps the list and leaves
remaining at the total spent), fail with the insufficient-funds todo! stub
when remaining is nonzero, and otherwise hand the selected inputs to the
tw_utxo pre-signing stage. -/
def preimageHashes (c : Crypto) (proto : SigningInput) :
    Except RustPanic PreSigningOutput :=
  match processRecipients c proto.outputs with
  | Except.error e => Except.error e
  | Except.ok utxoOutputs =>
    let totalSpent := (utxoOutputs.map TxOut.value).sum
    match buildTxIns c proto.inputs with
    | Except.error e => Except.error e
    | Except.ok classified =>
      let sel : List TxIn × Nat :=
        match proto.input_selector with
        | SelectorType.AutomaticAscending =>
            takeUntilCovered totalSpent (sortByAmount classified)
        | SelectorType.UseAll => (classified, totalSpent)
      if sel.2 ≠ 0 then Except.error RustPanic.todo
      else
        let utxoSigning : UtxoSigningInput :=
          { version := proto.version,
            lock_time := convert_locktime proto.lock_time,
            inputs := sel.1, outputs := utxoOutputs }
        Except.ok { error := 0,
                    sighashes := utxoPreimageHashes c utxoSigning,
                    utxo_inputs := sel.1,
                    utxo_outputs := utxoOutputs }

/-! ## Signature slice parsing (bitcoin crate signature types) -/

/-- EcdsaSighashType::from_standard accepts exactly these bytes. -/
def validEcdsaSighashByte (b : Nat) : Bool :=
  b = 1 || b = 2 || b = 3 || b = 129 || b = 130 || b = 131

/-- ecdsa::Signature::from_slice: the slice splits into a DER body and a
trailing standard sighash byte; serialize() re-emits exactly the input
slice, so only the validity check is tracked. -/
def ecdsaSigSliceOk (c : Crypto) (sig : List Nat) : Bool :=
  match sig.getLast? with
  | Option.some b => validEcdsaSighashByte b && c.derValid sig.dropLast
  | Option.none => false

/-- TapSighashType::from_consensus_u8 accepts exactly these bytes. -/
def validTapSighashByte (b : Nat) : Bool :=
  b = 0 || b = 1 || b = 2 || b = 3 || b = 129 || b = 130 || b = 131

/-- taproot::Signature::from_slice: 64 bytes parse as (sig, Default);
65 bytes split a trailing consensus sighash byte; other lengths fail. -/
def taprootSigFromSlice (sig : List Nat) : Option (List Nat × Nat) :=
  if sig.length = 64 then Option.some (sig, 0)
  else if sig.length = 65 then
    match sig.getLast? with
    | Option.some b =>
        if validTapSighashByte b then Option.some (sig.dropLast, b) else Option.none
    | Option.none => Option.none
  else Option.none

/-- taproot::Signature::to_vec: the 64 signature bytes, with the sighash
byte appended only when the type is not Default (0). -/
def taprootSigToVec (p : List Nat × Nat) : List Nat :=
  p.1 ++ (if p.2 = 0 then [] else [p.2])

/-! ## compile -/

/-- The (script_sig, witness) pair of the claims loop of compile: p2pkh
pushes the serialized signature and then the 20-byte pubkey hash with an
empty witness; p2wpkh puts signature then pubkey hash on the witness;
p2tr key-path puts the single taproot signature on the witness; p2tr
script-path puts signature, payload and caller control block on the
witness; the remaining builder variants hit the catch-all panic!(), the
custom variant passes the caller data through, and an absent variant is a
todo! stub. -/
def claimScriptSig (c : Crypto) (input : Input) (sig : List Nat) :
    Except RustPanic (List Nat × List (List Nat)) :=
  match input.variant with
  | InputVariant.builder b =>
    match b with
    | InputBuilder.p2pkh poh =>
        if ecdsaSigSliceOk c sig then
          match pubkeyHashFromProto c poh with
          | Except.ok ph => Except.ok (pushSlice sig ++ pushSlice ph, [])
          | Except.error e => Except.error e
        else Except.error RustPanic.unwrapFailed
    | InputBuilder.p2wpkh poh =>
        if ecdsaSigSliceOk c sig then
          match witnessPubkeyHashFromProto c poh with
          | Except.ok wh => Except.ok ([], [sig, wh])
          | Except.error e => Except.error e
        else Except.error RustPanic.unwrapFailed
    | InputBuilder.p2tr_key_path _ =>
        match taprootSigFromSlice sig with
        | Option.some p => Except.ok ([], [taprootSigToVec p])
        | Option.none => Except.error RustPanic.unwrapFailed
    | InputBuilder.p2tr_script_path payload controlBlock =>
        match taprootSigFromSlice sig with
        | Option.some p =>
            if c.controlBlockValid controlBlock then
              Except.ok ([], [taprootSigToVec p, payload, controlBlock])
            else Except.error RustPanic.unwrapFailed
        | Option.none => Except.error RustPanic.unwrapFailed
    | InputBuilder.p2sh _ => Except.error RustPanic.explicitPanic
    | InputBuilder.p2wsh _ => Except.error RustPanic.explicitPanic
    | InputBuilder.none => Except.error RustPanic.explicitPanic
  | InputVariant.custom ss wi => Except.ok (ss, wi)
  | InputVariant.none => Except.error RustPanic.todo

/-- One TxInClaim of the claims loop: txid and vout copied from the request
input, sequence hard-coded to 0, script_sig and witness from the variant
match. -/
def buildInputClaim (c : Crypto) (input : Input) (sig : List Nat) :
    Except RustPanic TxInClaim :=
  match claimScriptSig c input sig with
  | Except.ok sw =>
      Except.ok { txid := input.txid, vout := input.vout, sequence := 0,
                  script_sig := sw.1, witness_items := sw.2 }
  | Except.error e => Except.error e

/-- The claims loop of compile: one claim per request input in declared
order, indexing signatures by the input position (out-of-bounds indexing
would panic). -/
def buildInputClaims (c : Crypto) :
    List Input → List (List Nat) → Except RustPanic (List TxInClaim)
  | [], _ => Except.ok []
  | _ :: _, [] => Except.error RustPanic.indexOutOfBounds
  | i :: is, s :: ss =>
      match buildInputClaim c i s with
      | Except.ok cl =>
          match buildInputClaims c is ss with
          | Except.ok rest => Except.ok (cl :: rest)
          | Except.error e => Except.error e
      | Except.error e => Except.error e

/-- The PreSerialization record compile hands to the tw_utxo serializer:
guarded by the signature-count todo! stub, claims for every declared input,
recipients reprocessed, lock_time hard-coded to blocks(0). -/
def compilePre (c : Crypto) (proto : SigningInput)
    (signatures : List (List Nat)) : Except RustPanic PreSerialization :=
  if proto.inputs.length ≠ signatures.length then Except.error RustPanic.todo
  else
    match buildInputClaims c proto.inputs signatures with
    | Except.ok claims =>
        match processRecipients c proto.outputs with
        | Except.ok utxoOutputs =>
            Except.ok { version := proto.version, lock_time_blocks := 0,
                        inputs := claims, outputs := utxoOutputs }
        | Except.error e => Except.error e
    | Except.error e => Except.error e

/-! ## tw_utxo serialization -/

/-- Wire encoding of one input: txid, vout, script_sig with length prefix,
sequence. -/
def serializeTxInClaim (i : TxInClaim) : List Nat :=
  i.txid ++ u32le i.vout ++ compactSize i.script_sig.length ++ i.script_sig
    ++ u32le i.sequence

/-- Wire encoding of one output: amount, script_pubkey with length prefix. -/
def serializeTxOut (o : TxOut) : List Nat :=
  u64le o.value ++ compactSize o.script_pubkey.length ++ o.script_pubkey

/-- Wire encoding of one witness stack. -/
def serializeWitnessStack (w : List (List Nat)) : List Nat :=
  compactSize w.length ++ (w.map (fun item => compactSize item.length ++ item)).flatten

/-- Modelled from the spec: the legacy (witness-stripped) transaction
serialization of §4.7, produced by the tw_utxo serializer (not under
src/): version, inputs and outputs with CompactSize counts, lock time. -/
def legacySerialize (p : PreSerialization) : List Nat :=
  i32le p.version
    ++ compactSize p.inputs.length ++ (p.inputs.map serializeTxInClaim).flatten
    ++ compactSize p.outputs.length ++ (p.outputs.map serializeTxOut).flatten
    ++ u32le p.lock_time_blocks

/-- Modelled from the spec: the tw_utxo Compiler::compile wire serialization
of §4.7 (not under src/): segwit marker/flag and witness section exactly
when some input has a non-empty witness, otherwise the legacy form. -/
def serializeTx (p : PreSerialization) : List Nat :=
  if p.inputs.any (fun i => ¬ i.witness_items.isEmpty) then
    i32le p.version ++ [0, 1]
      ++ compactSize p.inputs.length ++ (p.inputs.map serializeTxInClaim).flatten
      ++ compactSize p.outputs.length ++ (p.outputs.map serializeTxOut).flatten
      ++ (p.inputs.map (fun i => serializeWitnessStack i.witness_items)).flatten
      ++ u32le p.lock_time_blocks
  else legacySerialize p

/-- Double SHA-256. -/
def dsha256 (c : Crypto) (m : List Nat) : List Nat :=
  c.sha256 (c.sha256 m)

/-- compile: check the signature count against the declared inputs, build
the claims and outputs, serialize, and return the signing output — with
transaction_id left at its empty default and error 0. -/
def compile (c : Crypto) (proto : SigningInput) (signatures : List (List Nat)) :
    Except RustPanic SigningOutput :=
  match compilePre c proto signatures with
  | Except.ok pre =>
      Except.ok { encoded := serializeTx pre, transaction_id := [],
                  error := 0, fee := 0 }
  | Except.error e => Except.error e

/-! ## sign -/

/-- One signature of the signing loop of sign.  The sighash slice must be
32 bytes (Message::from_slice unwrap).  Legacy and Segwit entries are
ECDSA-signed and serialized DER with the All sighash byte appended.
Taproot entries with an empty leaf hash are key-path: the keypair is
tap-tweaked with an empty merkle root and Schnorr-signed — without aux
randomness in the test build, with the sampled aux randomness otherwise.
Taproot entries with a leaf hash are script-path: Schnorr-signed with the
untweaked keypair by KeyPair::sign_schnorr, which draws aux randomness in
every build — the cfg(test) switch does not cover this branch.  Taproot
signatures carry the All byte because the hard-coded TapSighashType::All
is not Default. -/
def signEntry (c : Crypto) (testMode : Bool) (aux : List Nat) (kp : List Nat)
    (entry : SighashEntry) (utxoIn : TxIn) : Except RustPanic (List Nat) :=
  if entry.sighash.length ≠ 32 then Except.error RustPanic.unwrapFailed
  else
    match entry.signing_method with
    | SighashMethod.Legacy => Except.ok (c.ecdsaSign kp entry.sighash ++ [1])
    | SighashMethod.Segwit => Except.ok (c.ecdsaSign kp entry.sighash ++ [1])
    | SighashMethod.Taproot =>
        if utxoIn.leaf_hash = [] then
          Except.ok
            ((if testMode then
                c.schnorrSignNoAux (c.keypairTapTweakNone kp) entry.sighash
              else
                c.schnorrSignAux aux (c.keypairTapTweakNone kp) entry.sighash)
              ++ [1])
        else
          Except.ok (c.schnorrSignKeyPairAux aux kp entry.sighash ++ [1])

/-- The signing loop of sign over the zipped (sighash entry, utxo input)
pairs; the index feeds the per-signature aux-randomness stream of the
production build. -/
def signAll (c : Crypto) (testMode : Bool) (aux : Nat → List Nat)
    (kp : List Nat) :
    Nat → List (SighashEntry × TxIn) → Except RustPanic (List (List Nat))
  | _, [] => Except.ok []
  | i, e :: es =>
      match signEntry c testMode (aux i) kp e.1 e.2 with
      | Except.ok s =>
          match signAll c testMode aux kp (i + 1) es with
          | Except.ok rest => Except.ok (s :: rest)
          | Except.error err => Except.error err
      | Except.error err => Except.error err

/-- sign: run preimage_hashes, build the keypair from the private key
(unwrap), sign every (sighash, utxo input) pair, and compile with the
collected signatures.  testMode selects the cfg(test) build whose taproot
key-path signing draws no aux randomness; aux is the per-signature entropy
stream of the production build. -/
def sign (c : Crypto) (testMode : Bool) (aux : Nat → List Nat)
    (proto : SigningInput) : Except RustPanic SigningOutput :=
  match preimageHashes c proto with
  | Except.error e => Except.error e
  | Except.ok pre =>
      if c.seckeyValid proto.private_key then
        match signAll c testMode aux proto.private_key 0
            (pre.sighashes.zip pre.utxo_inputs) with
        | Except.ok sigs => compile c proto sigs
        | Except.error e => Except.error e
      else Except.error RustPanic.unwrapFailed

/-! ## A concrete instantiation of the primitives

Used to run the embedded code on explicit inputs: hash primitives return
constant digests of the library-guaranteed length, parsers accept, and the
signing primitives return distinct constant strings. -/

def dummyCrypto : Crypto where
  sha256 := fun _ => List.replicate 32 0
  sha256_len := fun _ => by simp
  hash160 := fun _ => List.replicate 20 0
  pubkeyValid := fun _ => true
  xonly := fun _ => List.replicate 32 0
  tapTweakXOnly := fun _ _ => List.replicate 32 0
  keypairTapTweakNone := fun k => 1 :: k
  seckeyValid := fun _ => true
  ecdsaSign := fun _ _ => List.replicate 70 3
  schnorrSignAux := fun _ _ _ => List.replicate 64 4
  schnorrSignNoAux := fun _ _ => List.replicate 64 5
  schnorrSignKeyPairAux := fun _ _ _ => List.replicate 64 6
  derValid := fun _ => true
  controlBlockValid := fun _ => true
  sighashDigest := fun _ _ => List.replicate 32 7

/-- A second instantiation whose KeyPair::sign_schnorr model lets the
sampled entropy show up in the 64 signature bytes, so that the entropy
dependence of the script-path branch is observable; all other primitives
are as in dummyCrypto. -/
def auxDependentCrypto : Crypto where
  sha256 := fun _ => List.replicate 32 0
  sha256_len := fun _ => by simp
  hash160 := fun _ => List.replicate 20 0
  pubkeyValid := fun _ => true
  xonly := fun _ => List.replicate 32 0
  tapTweakXOnly := fun _ _ => List.replicate 32 0
  keypairTapTweakNone := fun k => 1 :: k
  seckeyValid := fun _ => true
  ecdsaSign := fun _ _ => List.replicate 70 3
  schnorrSignAux := fun _ _ _ => List.replicate 64 4
  schnorrSignNoAux := fun _ _ => List.replicate 64 5
  schnorrSignKeyPairAux := fun aux _ _ => List.replicate 63 0 ++ aux.take 1
  derValid := fun _ => true
  controlBlockValid := fun _ => true
  sighashDigest := fun _ _ => List.replicate 32 7

/-! ## Concrete inputs used to exercise the code -/

/-- A p2pkh input spending a precomputed 20-byte pubkey hash. -/
def p2pkhHashInput (seed amount : Nat) : Input :=
  { txid := List.replicate 32 seed, vout := 0, amount := amount,
    one_prevout := false,
    variant := InputVariant.builder
      (InputBuilder.p2pkh (PubkeyOrHash.hash (List.replicate 20 seed))) }

/-- Scenario S5 of the spec: inputs of 10000, 20000 and 70000 sats, one
output of 25000 sats, AutomaticAscending selection. -/
def s5Request : SigningInput :=
  { version := 2, lock_time := LockTimeOneOf.none,
    private_key := List.replicate 32 1,
    input_selector := SelectorType.AutomaticAscending,
    inputs := [p2pkhHashInput 1 10000, p2pkhHashInput 2 20000,
               p2pkhHashInput 3 70000],
    outputs := [{ amount := 25000,
                  to_recipient := OutputRecipient.script_pubkey [81] }] }

/-- A UseAll request whose single 50000-sat input amply covers its
40000-sat output. -/
def useAllRequest : SigningInput :=
  { version := 2, lock_time := LockTimeOneOf.none,
    private_key := List.replicate 32 1,
    input_selector := SelectorType.UseAll,
    inputs := [p2pkhHashInput 1 50000],
    outputs := [{ amount := 40000,
                  to_recipient := OutputRecipient.script_pubkey [81] }] }

/-- A request containing a p2sh input. -/
def p2shInputRequest : SigningInput :=
  { version := 2, lock_time := LockTimeOneOf.none,
    private_key := List.replicate 32 1,
    input_selector := SelectorType.UseAll,
    inputs := [{ txid := List.replicate 32 4, vout := 0, amount := 1000,
                 one_prevout := false,
                 variant := InputVariant.builder (InputBuilder.p2sh [1, 2, 3]) }],
    outputs := [{ amount := 1,
                  to_recipient := OutputRecipient.script_pubkey [81] }] }

/-- An output whose recipient is the p2wsh builder variant. -/
def p2wshOutput : Output :=
  { amount := 1,
    to_recipient := OutputRecipient.builder
      (OutputBuilder.p2wsh (List.replicate 32 0)) }

/-- A custom input carrying its own script_sig and no witness. -/
def customInputA : Input :=
  { txid := List.replicate 32 17, vout := 0, amount := 1000,
    one_prevout := false, variant := InputVariant.custom [1] [] }

/-- A second custom input with a different outpoint and a witness item. -/
def customInputB : Input :=
  { txid := List.replicate 32 18, vout := 3, amount := 2000,
    one_prevout := false, variant := InputVariant.custom [2] [[9]] }

/-- A one-input request used against an empty signature list. -/
def c6Request : SigningInput :=
  { version := 2, lock_time := LockTimeOneOf.none,
    private_key := List.replicate 32 1,
    input_selector := SelectorType.UseAll,
    inputs := [customInputA], outputs := [] }

/-- A 33-byte compressed public key. -/
def c7Pubkey : List Nat := 2 :: List.replicate 32 9

/-- A p2pkh input that supplies the raw public key (not a hash). -/
def c7Input : Input :=
  { txid := List.replicate 32 5, vout := 0, amount := 50000,
    one_prevout := false,
    variant := InputVariant.builder
      (InputBuilder.p2pkh (PubkeyOrHash.pubkey c7Pubkey)) }

/-- A 71-byte ECDSA signature slice: DER body with the All byte appended. -/
def c7Sig : List Nat := List.replicate 70 3 ++ [1]

/-- A one-custom-input, one-output request that compile accepts. -/
def c8Request : SigningInput :=
  { version := 2, lock_time := LockTimeOneOf.none,
    private_key := List.replicate 32 1,
    input_selector := SelectorType.UseAll,
    inputs := [customInputA],
    outputs := [{ amount := 5,
                  to_recipient := OutputRecipient.script_pubkey [81] }] }

/-- The PreSerialization record compile derives from c8Request. -/
def c8Pre : PreSerialization :=
  { version := 2, lock_time_blocks := 0,
    inputs := [{ txid := List.replicate 32 17, vout := 0, sequence := 0,
                 script_sig := [1], witness_items := [] }],
    outputs := [{ value := 5, script_pubkey := [81] }] }

/-- A two-custom-input request for the compile claims loop. -/
def c10Request : SigningInput :=
  { version := 2, lock_time := LockTimeOneOf.none,
    private_key := List.replicate 32 1,
    input_selector := SelectorType.AutomaticAscending,
    inputs := [customInputA, customInputB], outputs := [] }

/-- Two (ignored) signatures for the two custom inputs. -/
def c10Sigs : List (List Nat) := [[], []]

/-- The claims compile builds for c10Request. -/
def c10Claims : List TxInClaim :=
  [{ txid := List.replicate 32 17, vout := 0, sequence := 0,
     script_sig := [1], witness_items := [] },
   { txid := List.replicate 32 18, vout := 3, sequence := 0,
     script_sig := [2], witness_items := [[9]] }]

/-- A taproot script-path leaf payload (OP_1). -/
def c3Payload : List Nat := [81]

/-- A caller-supplied control block. -/
def c3ControlBlock : List Nat := List.replicate 33 2

/-- A p2tr script-path input. -/
def c3Input : Input :=
  { txid := List.replicate 32 6, vout := 0, amount := 200000,
    one_prevout := false,
    variant := InputVariant.builder
      (InputBuilder.p2tr_script_path c3Payload c3ControlBlock) }

/-- The classification of c3Input under dummyCrypto. -/
def c3Expected : Classified :=
  { sighash_method := SighashMethod.Taproot, script_pubkey := c3Payload,
    leaf_hash := List.replicate 32 0 }

/-- A 32-byte sighash. -/
def c4Sighash : List Nat := List.replicate 32 7

/-- A Taproot sighash entry. -/
def c4EntryTaproot : SighashEntry :=
  { sighash := c4Sighash, signing_method := SighashMethod.Taproot }

/-- A Legacy sighash entry. -/
def c4EntryLegacy : SighashEntry :=
  { sighash := c4Sighash, signing_method := SighashMethod.Legacy }

/-- A taproot key-path utxo input: empty leaf hash. -/
def c4KeyPathIn : TxIn :=
  { txid := List.replicate 32 6, vout := 0, amount := 0, script_pubkey := [],
    sighash_method := SighashMethod.Taproot, sighash_ty := 1,
    leaf_hash := [], one_prevout := false }

/-- A taproot script-path utxo input: non-empty leaf hash. -/
def c4ScriptPathIn : TxIn :=
  { txid := List.replicate 32 6, vout := 0, amount := 0, script_pubkey := [],
    sighash_method := SighashMethod.Taproot, sighash_ty := 1,
    leaf_hash := List.replicate 32 9, one_prevout := false }

/-- A 32-byte private key. -/
def c4Seckey : List Nat := List.replicate 32 1

/-- A request that sign completes end to end with a taproot script-path
signature: UseAll with no outputs makes the selection pass, the single
p2tr script-path input is signed by the script-path branch, and compile
accepts the one signature. -/
def c9Request : SigningInput :=
  { version := 2, lock_time := LockTimeOneOf.none,
    private_key := List.replicate 32 1,
    input_selector := SelectorType.UseAll,
    inputs := [{ txid := List.replicate 32 8, vout := 0, amount := 1000,
                 one_prevout := false,
                 variant := InputVariant.builder
                   (InputBuilder.p2tr_script_path [81] (List.replicate 33 2)) }],
    outputs := [] }

instance {ε α : Type} [DecidableEq ε] [DecidableEq α] :
    DecidableEq (Except ε α) := fun x y =>
  match x, y with
  | Except.ok a, Except.ok b =>
      if h : a = b then isTrue (by rw [h])
      else isFalse (fun hh => h (Except.ok.inj hh))
  | Except.error a, Except.error b =>
      if h : a = b then isTrue (by rw [h])
      else isFalse (fun hh => h (Except.error.inj hh))
  | Except.ok _, Except.error _ => isFalse (fun hh => Except.noConfusion hh)
  | Except.error _, Except.ok _ => isFalse (fun hh => Except.noConfusion hh)

/-! ## Helper lemmas -/

/-- A TapLeafHash is a 32-byte digest. -/
theorem tapLeafHash_length (c : Crypto) (s : List Nat) :
    (tapLeafHash c s).length = 32 :=
  c.sha256_len _

/-- A TapLeafHash is never the empty byte string. -/
theorem tapLeafHash_ne_nil (c : Crypto) (s : List Nat) : tapLeafHash c s ≠ [] := by
  intro h
  have hl := tapLeafHash_length c s
  rw [h] at hl
  simp at hl

/-- A p2pkh input classifies to the Legacy method with no leaf hash. -/
theorem classify_p2pkh (c : Crypto) (inp : Input) (poh : PubkeyOrHash)
    (out : Classified)
    (hv : inp.variant = InputVariant.builder (InputBuilder.p2pkh poh))
    (h : classifyInput c inp = Except.ok out) :
    out.sighash_method = SighashMethod.Legacy ∧ out.leaf_hash = [] := by
  unfold classifyInput at h
  rw [hv] at h
  cases hph : pubkeyHashFromProto c poh with
  | ok ph =>
      simp only [hph] at h
      injection h with h2
      subst h2
      exact ⟨rfl, rfl⟩
  | error e =>
      simp only [hph] at h
      exact absurd h (by simp)

/-- A p2wpkh input classifies to the Segwit method with no leaf hash. -/
theorem classify_p2wpkh (c : Crypto) (inp : Input) (poh : PubkeyOrHash)
    (out : Classified)
    (hv : inp.variant = InputVariant.builder (InputBuilder.p2wpkh poh))
    (h : classifyInput c inp = Except.ok out) :
    out.sighash_method = SighashMethod.Segwit ∧ out.leaf_hash = [] := by
  unfold classifyInput at h
  rw [hv] at h
  cases hph : witnessPubkeyHashFromProto c poh with
  | ok wh =>
      simp only [hph] at h
      injection h with h2
      subst h2
      exact ⟨rfl, rfl⟩
  | error e =>
      simp only [hph] at h
      exact absurd h (by simp)

/-- A p2tr key-path input classifies to the Taproot method with no leaf
hash. -/
theorem classify_p2tr_key_path (c : Crypto) (inp : Input) (pk : List Nat)
    (out : Classified)
    (hv : inp.variant = InputVariant.builder (InputBuilder.p2tr_key_path pk))
    (h : classifyInput c inp = Except.ok out) :
    out.sighash_method = SighashMethod.Taproot ∧ out.leaf_hash = [] := by
  unfold classifyInput at h
  rw [hv] at h
  by_cases hpk : c.pubkeyValid pk = true
  · simp only [hpk, if_true] at h
    injection h with h2
    subst h2
    exact ⟨rfl, rfl⟩
  · simp only [hpk, if_false] at h
    exact absurd h (by simp)

/-- A p2tr script-path input classifies to the Taproot method with the
TapLeafHash of its payload as leaf hash, which is never empty. -/
theorem classify_p2tr_script_path (c : Crypto) (inp : Input)
    (payload cb : List Nat) (out : Classified)
    (hv : inp.variant =
      InputVariant.builder (InputBuilder.p2tr_script_path payload cb))
    (h : classifyInput c inp = Except.ok out) :
    out.sighash_method = SighashMethod.Taproot ∧
    out.leaf_hash = tapLeafHash c payload ∧ out.leaf_hash ≠ [] := by
  unfold classifyInput at h
  rw [hv] at h
  injection h with h2
  subst h2
  exact ⟨rfl, rfl, tapLeafHash_ne_nil c payload⟩

/-- The txid and vout of a built claim are copied from the request input. -/
theorem buildInputClaim_txid_vout (c : Crypto) (i : Input) (s : List Nat)
    (cl : TxInClaim) (h : buildInputClaim c i s = Except.ok cl) :
    cl.txid = i.txid ∧ cl.vout = i.vout := by
  unfold buildInputClaim at h
  cases hs : claimScriptSig c i s with
  | ok sw =>
      simp only [hs] at h
      injection h with h2
      subst h2
      exact ⟨rfl, rfl⟩
  | error e =>
      simp only [hs] at h
      exact absurd h (by simp)

/-- The claims loop yields one claim per input, in declared order, each
carrying its input's outpoint. -/
theorem buildInputClaims_txid_vout (c : Crypto) :
    ∀ (inputs : List Input) (sigs : List (List Nat)) (claims : List TxInClaim),
      buildInputClaims c inputs sigs = Except.ok claims →
      claims.map (fun cl => (cl.txid, cl.vout)) =
        inputs.map (fun i => (i.txid, i.vout)) := by
  intro inputs
  induction inputs with
  | nil =>
      intro sigs claims h
      cases sigs with
      | nil =>
          unfold buildInputClaims at h
          injection h with h2
          subst h2
          rfl
      | cons s ss =>
          unfold buildInputClaims at h
          injection h with h2
          subst h2
          rfl
  | cons i is ih =>
      intro sigs claims h
      cases sigs with
      | nil =>
          unfold buildInputClaims at h
          exact absurd h (by simp)
      | cons s ss =>
          unfold buildInputClaims at h
          cases hcl : buildInputClaim c i s with
          | error e =>
              simp only [hcl] at h
              exact absurd h (by simp)
          | ok cl =>
              simp only [hcl] at h
              cases hrest : buildInputClaims c is ss with
              | error e =>
                  simp only [hrest] at h
                  exact absurd h (by simp)
              | ok rest =>
                  simp only [hrest] at h
                  injection h with h2
                  subst h2
                  have hiv := buildInputClaim_txid_vout c i s cl hcl
                  simp [hiv.1, hiv.2, ih ss rest hrest]

/-! ## Claim theorems -/

/-- Claim C1 (refuted, code bug): on scenario S5 — inputs of 10000, 20000
and 70000 sats, one output of 25000 sats, AutomaticAscending — the claim
says the 10000 and 20000 inputs are selected; the code's take_while drops
the element on which remaining reaches zero, so only the 10000 input is
selected, covering less than the output total. -/
theorem c1_s5_selection_drops_covering_input :
    Except.map (fun pre => pre.utxo_inputs.map TxIn.amount)
      (preimageHashes dummyCrypto s5Request) = Except.ok [10000] := rfl

/-- Claim C2 (refuted, code bug): under UseAll the remaining counter is
never decremented, so a request whose 50000-sat input amply covers its
40000-sat output still takes the insufficient-funds todo! stub — a panic,
not an InsufficientFunds response. -/
theorem c2_useall_insufficient_funds_stub :
    preimageHashes dummyCrypto useAllRequest = Except.error RustPanic.todo :=
  rfl

/-- Claim C3 (confirmed): every input classified by preimage_hashes obeys
the variant table — p2pkh gives Legacy, p2wpkh gives Segwit, both p2tr
variants give Taproot; a p2tr script-path entry carries the TapLeafHash of
its payload script, which is non-empty, and a p2tr key-path entry carries
an empty leaf hash. -/
theorem c3_sighash_variant_coherence (c : Crypto) (inp : Input)
    (out : Classified) (h : classifyInput c inp = Except.ok out) :
    (∀ poh, inp.variant = InputVariant.builder (InputBuilder.p2pkh poh) →
       out.sighash_method = SighashMethod.Legacy ∧ out.leaf_hash = []) ∧
    (∀ poh, inp.variant = InputVariant.builder (InputBuilder.p2wpkh poh) →
       out.sighash_method = SighashMethod.Segwit ∧ out.leaf_hash = []) ∧
    (∀ pk, inp.variant = InputVariant.builder (InputBuilder.p2tr_key_path pk) →
       out.sighash_method = SighashMethod.Taproot ∧ out.leaf_hash = []) ∧
    (∀ payload cb,
       inp.variant =
         InputVariant.builder (InputBuilder.p2tr_script_path payload cb) →
       out.sighash_method = SighashMethod.Taproot ∧
       out.leaf_hash = tapLeafHash c payload ∧ out.leaf_hash ≠ []) :=
  ⟨fun poh hv => classify_p2pkh c inp poh out hv h,
   fun poh hv => classify_p2wpkh c inp poh out hv h,
   fun pk hv => classify_p2tr_key_path c inp pk out hv h,
   fun payload cb hv => classify_p2tr_script_path c inp payload cb out hv h⟩

/-- Witness for C3: a concrete p2tr script-path input classifies to
Taproot with the non-empty TapLeafHash of its payload. -/
theorem c3_sighash_variant_coherence_witness :
    classifyInput dummyCrypto c3Input = Except.ok c3Expected ∧
    c3Expected.sighash_method = SighashMethod.Taproot ∧
    c3Expected.leaf_hash = tapLeafHash dummyCrypto c3Payload ∧
    c3Expected.leaf_hash ≠ [] := by
  have h : classifyInput dummyCrypto c3Input = Except.ok c3Expected := rfl
  have main := c3_sighash_variant_coherence dummyCrypto c3Input c3Expected h
  exact ⟨h, main.2.2.2 c3Payload c3ControlBlock rfl⟩

/-- Claim C4 (confirmed): in the signing loop, a Taproot entry with an
empty leaf hash is Schnorr-signed with the tap-tweaked (empty merkle root)
keypair — without aux randomness in the test build; a Taproot entry with a
non-empty leaf hash is Schnorr-signed with the untweaked keypair; Legacy
and Segwit entries are ECDSA-signed with the All sighash byte appended. -/
theorem c4_signer_key_tweaking (c : Crypto) (tm : Bool) (aux kp : List Nat)
    (entry : SighashEntry) (utxoIn : TxIn)
    (hlen : entry.sighash.length = 32) :
    (entry.signing_method = SighashMethod.Taproot → utxoIn.leaf_hash = [] →
       signEntry c tm aux kp entry utxoIn =
         Except.ok
           ((if tm then
               c.schnorrSignNoAux (c.keypairTapTweakNone kp) entry.sighash
             else
               c.schnorrSignAux aux (c.keypairTapTweakNone kp) entry.sighash)
             ++ [1])) ∧
    (entry.signing_method = SighashMethod.Taproot → utxoIn.leaf_hash ≠ [] →
       signEntry c tm aux kp entry utxoIn =
         Except.ok (c.schnorrSignKeyPairAux aux kp entry.sighash ++ [1])) ∧
    ((entry.signing_method = SighashMethod.Legacy ∨
        entry.signing_method = SighashMethod.Segwit) →
       signEntry c tm aux kp entry utxoIn =
         Except.ok (c.ecdsaSign kp entry.sighash ++ [1])) := by
  refine ⟨?_, ?_, ?_⟩
  · intro hm hleaf
    simp [signEntry, hlen, hm, hleaf]
  · intro hm hleaf
    simp [signEntry, hlen, hm, hleaf]
  · intro hm
    cases hm with
    | inl h1 => simp [signEntry, hlen, h1]
    | inr h1 => simp [signEntry, hlen, h1]

/-- Witness for C4: the dispatch at concrete taproot key-path, taproot
script-path and legacy entries in the test build. -/
theorem c4_signer_key_tweaking_witness :
    signEntry dummyCrypto true [] c4Seckey c4EntryTaproot c4KeyPathIn =
      Except.ok
        (dummyCrypto.schnorrSignNoAux
          (dummyCrypto.keypairTapTweakNone c4Seckey) c4EntryTaproot.sighash
          ++ [1]) ∧
    signEntry dummyCrypto true [] c4Seckey c4EntryTaproot c4ScriptPathIn =
      Except.ok
        (dummyCrypto.schnorrSignKeyPairAux [] c4Seckey c4EntryTaproot.sighash
          ++ [1]) ∧
    signEntry dummyCrypto true [] c4Seckey c4EntryLegacy c4KeyPathIn =
      Except.ok
        (dummyCrypto.ecdsaSign c4Seckey c4EntryLegacy.sighash ++ [1]) := by
  have h1 := (c4_signer_key_tweaking dummyCrypto true [] c4Seckey
    c4EntryTaproot c4KeyPathIn (by decide)).1 rfl rfl
  have h2 := (c4_signer_key_tweaking dummyCrypto true [] c4Seckey
    c4EntryTaproot c4ScriptPathIn (by decide)).2.1 rfl (by decide)
  have h3 := (c4_signer_key_tweaking dummyCrypto true [] c4Seckey
    c4EntryLegacy c4KeyPathIn (by decide)).2.2 (Or.inl rfl)
  exact ⟨by simpa using h1, h2, h3⟩

/-- Claim C5 (refuted, code bug): a p2sh input and a p2wsh output both hit
todo! stubs — a panic, not an UnsupportedVariant error code. -/
theorem c5_unsupported_variant_is_todo_stub :
    preimageHashes dummyCrypto p2shInputRequest =
      Except.error RustPanic.todo ∧
    processRecipients dummyCrypto [p2wshOutput] =
      Except.error RustPanic.todo :=
  ⟨rfl, rfl⟩

/-- Claim C6 (refuted, code bug): compiling a one-input request with an
empty signature list takes the count-mismatch todo! stub — a panic, not a
SignatureCountMismatch response. -/
theorem c6_signature_count_mismatch_stub :
    compile dummyCrypto c6Request [] = Except.error RustPanic.todo := rfl

/-- Claim C7 (refuted, code bug): for a p2pkh input that supplies a raw
public key, the compiled script_sig pushes the serialized signature and
then the 20-byte pubkey hash — not the public key itself — with an empty
witness. -/
theorem c7_p2pkh_pushes_hash_not_pubkey :
    Except.map (List.map TxInClaim.script_sig)
        (buildInputClaims dummyCrypto [c7Input] [c7Sig]) =
      Except.ok [pushSlice c7Sig ++ pushSlice (dummyCrypto.hash160 c7Pubkey)] ∧
    Except.map (List.map TxInClaim.witness_items)
        (buildInputClaims dummyCrypto [c7Input] [c7Sig]) =
      Except.ok [[]] ∧
    pushSlice c7Sig ++ pushSlice (dummyCrypto.hash160 c7Pubkey) ≠
      pushSlice c7Sig ++ pushSlice c7Pubkey :=
  ⟨rfl, rfl, by decide⟩

/-- Claim C8 (refuted, code bug): compile succeeds on a concrete request
but leaves transaction_id at its empty default, which is not the
(non-empty) double SHA-256 of the legacy-form serialization. -/
theorem c8_transaction_id_left_empty :
    compilePre dummyCrypto c8Request [[]] = Except.ok c8Pre ∧
    Except.map SigningOutput.transaction_id
        (compile dummyCrypto c8Request [[]]) = Except.ok [] ∧
    dsha256 dummyCrypto (legacySerialize c8Pre) ≠ [] :=
  ⟨rfl, rfl, by decide⟩

/-- Claim C9 (refuted, code bug): the cfg(test) switch disables aux
randomness only in the taproot key-path branch; the script-path branch
calls the aux-randomized KeyPair::sign_schnorr in every build, so even
test-build output depends on the sampled entropy — on a request whose
p2tr script-path input reaches signing, two runs of sign with different
entropy produce different signed outputs. -/
theorem c9_script_path_entropy_breaks_test_determinism :
    sign auxDependentCrypto true (fun _ => [5]) c9Request ≠
      sign auxDependentCrypto true (fun _ => [9]) c9Request := by
  decide

/-- Claim C10 (confirmed): compile applies no UTXO selection — its result
is independent of the input_selector policy, the signature count is
checked against the full request-input count, and the claims loop emits
one claim per declared input, in order, carrying that input's outpoint. -/
theorem c10_compile_no_selection (c : Crypto) (proto : SigningInput)
    (sigs : List (List Nat)) (s s' : SelectorType) :
    (compile c { proto with input_selector := s } sigs =
       compile c { proto with input_selector := s' } sigs) ∧
    (proto.inputs.length ≠ sigs.length →
       compile c proto sigs = Except.error RustPanic.todo) ∧
    (∀ claims, buildInputClaims c proto.inputs sigs = Except.ok claims →
       claims.map (fun cl => (cl.txid, cl.vout)) =
         proto.inputs.map (fun i => (i.txid, i.vout))) := by
  refine ⟨rfl, ?_, ?_⟩
  · intro hne
    unfold compile compilePre
    rw [if_pos hne]
  · intro claims h
    exact buildInputClaims_txid_vout c proto.inputs sigs claims h

/-- Witness for C10: on a concrete two-input request, compile is
selector-independent, rejects a mismatched signature count, and the
concrete claims carry the two declared outpoints in order. -/
theorem c10_compile_no_selection_witness :
    (compile dummyCrypto
        { c10Request with input_selector := SelectorType.UseAll } c10Sigs =
       compile dummyCrypto
        { c10Request with input_selector := SelectorType.AutomaticAscending }
        c10Sigs) ∧
    (compile dummyCrypto c10Request [] = Except.error RustPanic.todo) ∧
    (c10Claims.map (fun cl => (cl.txid, cl.vout)) =
       c10Request.inputs.map (fun i => (i.txid, i.vout))) := by
  refine ⟨(c10_compile_no_selection dummyCrypto c10Request c10Sigs
    SelectorType.UseAll SelectorType.AutomaticAscending).1, ?_, ?_⟩
  · exact (c10_compile_no_selection dummyCrypto c10Request []
      SelectorType.UseAll SelectorType.UseAll).2.1 (by decide)
  · exact (c10_compile_no_selection dummyCrypto c10Request c10Sigs
      SelectorType.UseAll SelectorType.UseAll).2.2 c10Claims rfl

end WalletCore
